import Mathlib

/-!
Verification of the order lifecycle and inventory engine of the BotStore
Telegram bot (`bot.py`). The store document, the order records and every
store-mutating transaction (`_create_order`, `_prompt_proof`, `handle_proof`,
`_approve_order`, `_reject_order`, `_auto_reject_job`, `_load_store`) are
embedded as pure Lean functions over an explicit `Store` state; each branch of
an embedded function mirrors the corresponding Python branch, with the
user-facing message replaced by a result constructor. Timestamps are modelled
as integer seconds (ISO strings in the Python are produced and parsed only by
the code itself); a `created_at` that fails to parse is modelled as `none`,
matching `_parse_iso_datetime` returning `None`.
-/

set_option maxHeartbeats 1000000

/-- `ORDER_PAYMENT_TIMEOUT_SECONDS = 60` from `bot.py`. -/
def ORDER_PAYMENT_TIMEOUT_SECONDS : Int := 60

/-- A product record, as created by `_create_product_record`. -/
structure Product where
  id : Int
  name : String
  price : Int
  stock : Int
  description : String
  delivery : String
  seller_id : Int
  created_at : Int
deriving Repr, DecidableEq

/-- Order status strings written by the code: `pending_payment`,
`awaiting_proof`, `proof_submitted`, `paid`, `rejected`, `rejected_timeout`,
`cancelled`. These seven are the only values ever stored. -/
inductive OrderStatus where
  | pending_payment
  | awaiting_proof
  | proof_submitted
  | paid
  | rejected
  | rejected_timeout
  | cancelled
deriving Repr, DecidableEq, Fintype

/-- An order record, as created by `_create_order`; the nullable fields are
written by later transitions. `created_at` is `none` when the stored string
does not parse (`_parse_iso_datetime` returns `None`). -/
structure Order where
  id : Int
  product_id : Int
  product_name : String
  qty : Int
  total : Int
  buyer_id : Int
  buyer_name : String
  status : OrderStatus
  created_at : Option Int
  paid_at : Option Int := none
  approved_by : Option Int := none
  rejected_at : Option Int := none
  rejected_by : Option Int := none
  cancelled_at : Option Int := none
  proof_type : Option String := none
  proof_file_id : Option String := none
  proof_submitted_at : Option Int := none
deriving Repr, DecidableEq

/-- The store document: `{next_id, next_order_id, products, orders}`. -/
structure Store where
  next_id : Int
  next_order_id : Int
  products : List Product
  orders : List Order
deriving Repr, DecidableEq

/-- `_get_product`: first product with the given id. -/
def get_product (store : Store) (product_id : Int) : Option Product :=
  store.products.find? (fun item => item.id == product_id)

/-- The order lookup `next(item for item in store["orders"] if item["id"] == order_id)`
used by every order transaction. -/
def find_order (store : Store) (order_id : Int) : Option Order :=
  store.orders.find? (fun item => item.id == order_id)

/-- In-place mutation of the first list element satisfying `p`, as Python's
`next(...)` lookup followed by dict mutation does inside the store lock. -/
def update_first {α : Type} (p : α → Bool) (f : α → α) : List α → List α
  | [] => []
  | x :: xs => if p x then f x :: xs else x :: update_first p f xs

/-- Mutate the first order with the given id. -/
def update_order (store : Store) (order_id : Int) (f : Order → Order) : Store :=
  { store with orders := update_first (fun item => item.id == order_id) f store.orders }

/-- Mutate the first product with the given id. -/
def update_product (store : Store) (product_id : Int) (f : Product → Product) : Store :=
  { store with products := update_first (fun item => item.id == product_id) f store.products }

/-- `_is_order_expired`: false when `created_at` does not parse, otherwise
`(now - created_at).total_seconds() >= ORDER_PAYMENT_TIMEOUT_SECONDS`. -/
def is_order_expired (order : Order) (now : Int) : Bool :=
  match order.created_at with
  | none => false
  | some created_at => decide (ORDER_PAYMENT_TIMEOUT_SECONDS ≤ now - created_at)

/-- `_mark_order_timeout`: set status `rejected_timeout` and record `rejected_at`. -/
def mark_order_timeout (order : Order) (now : Int) : Order :=
  { order with status := .rejected_timeout, rejected_at := some now }

/-- `_is_admin`: membership of the user id in the `ADMIN_IDS` allow-list
(passed explicitly here instead of read from the environment). -/
def is_admin (admin_ids : List Int) (user_id : Int) : Bool :=
  admin_ids.contains user_id

/-- Result of `_create_order`, one constructor per reply branch. -/
inductive CreateResult where
  | product_not_found
  | insufficient_stock
  | created (order : Order)
deriving Repr, DecidableEq

/-- The order dict built by `_create_order`: next order id, snapshots of the
product's name and of `price * qty`, buyer identity, `pending_payment`. -/
def new_order (store : Store) (product : Product) (qty : Int)
    (buyer_id : Int) (buyer_name : String) (now : Int) : Order :=
  { id := store.next_order_id
    product_id := product.id
    product_name := product.name
    qty := qty
    total := product.price * qty
    buyer_id := buyer_id
    buyer_name := buyer_name
    status := .pending_payment
    created_at := some now }

/-- `_create_order`: inside the store lock, look up the product, check stock,
assign the next order id, append the new `pending_payment` order and persist.
Error branches return without saving, so the store component is unchanged. -/
def create_order (store : Store) (product_id : Int) (qty : Int)
    (buyer_id : Int) (buyer_name : String) (now : Int) : CreateResult × Store :=
  match get_product store product_id with
  | none => (.product_not_found, store)
  | some product =>
    if product.stock < qty then
      (.insufficient_stock, store)
    else
      let order := new_order store product qty buyer_id buyer_name now
      (.created order,
        { store with
            next_order_id := store.next_order_id + 1
            orders := store.orders ++ [order] })

/-- Result of `_prompt_proof` (`/confirm <order_id>`). -/
inductive PromptResult where
  | order_not_found
  | not_owner
  | already_timed_out
  | already_processed
  | expired_now
  | awaiting
deriving Repr, DecidableEq

/-- `_prompt_proof`: ownership, terminal-status and deadline guards, then the
`pending_payment | awaiting_proof → awaiting_proof` transition; a passed
deadline triggers `_mark_order_timeout` and a save before replying. -/
def prompt_proof (store : Store) (order_id : Int) (user_id : Int) (now : Int) :
    PromptResult × Store :=
  match find_order store order_id with
  | none => (.order_not_found, store)
  | some order =>
    if order.buyer_id ≠ user_id then
      (.not_owner, store)
    else if order.status = .rejected_timeout then
      (.already_timed_out, store)
    else if ¬(order.status = .pending_payment ∨ order.status = .awaiting_proof) then
      (.already_processed, store)
    else if is_order_expired order now then
      (.expired_now, update_order store order_id (fun o => mark_order_timeout o now))
    else
      (.awaiting, update_order store order_id (fun o => { o with status := .awaiting_proof }))

/-- Result of `handle_proof` (proof submission). -/
inductive ProofResult where
  | no_photo
  | order_not_found
  | not_owner
  | already_timed_out
  | already_processed
  | expired_now
  | submitted
deriving Repr, DecidableEq

/-- `handle_proof`: the attachment's photo list (`message.photo`); a message
with no photo (for example a document) is refused before the store is even
read. Otherwise the same guards as `_prompt_proof`, then the transition to
`proof_submitted` recording `proof_type = "photo"`, the file id of the last
(largest) photo, and the submission time. -/
def handle_proof (store : Store) (order_id : Int) (user_id : Int)
    (photos : List String) (now : Int) : ProofResult × Store :=
  match photos.getLast? with
  | none => (.no_photo, store)
  | some photo_id =>
    match find_order store order_id with
    | none => (.order_not_found, store)
    | some order =>
      if order.buyer_id ≠ user_id then
        (.not_owner, store)
      else if order.status = .rejected_timeout then
        (.already_timed_out, store)
      else if ¬(order.status = .pending_payment ∨ order.status = .awaiting_proof) then
        (.already_processed, store)
      else if is_order_expired order now then
        (.expired_now, update_order store order_id (fun o => mark_order_timeout o now))
      else
        (.submitted, update_order store order_id (fun o =>
          { o with
              status := .proof_submitted
              proof_type := some "photo"
              proof_file_id := some photo_id
              proof_submitted_at := some now }))

/-- Result of `_approve_order`, one constructor per reply branch. -/
inductive ApproveResult where
  | forbidden
  | order_not_found
  | wrong_state
  | product_gone_cancelled
  | insufficient_stock_cancelled
  | approved
deriving Repr, DecidableEq

/-- `_approve_order`: admin guard, order lookup, `proof_submitted` guard,
re-validation of the product and its stock (cancelling the order when either
fails), and on success the atomic `stock -= qty` decrement together with the
transition to `paid` recording `paid_at` and `approved_by`. -/
def approve_order (store : Store) (admin_ids : List Int) (admin_id : Int)
    (order_id : Int) (now : Int) : ApproveResult × Store :=
  if !is_admin admin_ids admin_id then
    (.forbidden, store)
  else
    match find_order store order_id with
    | none => (.order_not_found, store)
    | some order =>
      if order.status ≠ .proof_submitted then
        (.wrong_state, store)
      else
        match get_product store order.product_id with
        | none =>
          (.product_gone_cancelled,
            update_order store order_id (fun o =>
              { o with status := .cancelled, cancelled_at := some now }))
        | some product =>
          if product.stock < order.qty then
            (.insufficient_stock_cancelled,
              update_order store order_id (fun o =>
                { o with status := .cancelled, cancelled_at := some now }))
          else
            (.approved,
              update_order
                (update_product store order.product_id
                  (fun p => { p with stock := p.stock - order.qty }))
                order_id
                (fun o =>
                  { o with
                      status := .paid
                      paid_at := some now
                      approved_by := some admin_id }))

/-- Result of `_reject_order`, one constructor per reply branch. -/
inductive RejectResult where
  | forbidden
  | order_not_found
  | already_processed
  | rejected_ok
deriving Repr, DecidableEq

/-- `_reject_order`: admin guard, order lookup, allowed-status guard
(`proof_submitted`, `pending_payment`, `awaiting_proof`), then the transition
to `rejected` recording `rejected_at` and `rejected_by`. No stock change. -/
def reject_order (store : Store) (admin_ids : List Int) (admin_id : Int)
    (order_id : Int) (now : Int) : RejectResult × Store :=
  if !is_admin admin_ids admin_id then
    (.forbidden, store)
  else
    match find_order store order_id with
    | none => (.order_not_found, store)
    | some order =>
      if ¬(order.status = .proof_submitted ∨ order.status = .pending_payment
            ∨ order.status = .awaiting_proof) then
        (.already_processed, store)
      else
        (.rejected_ok,
          update_order store order_id (fun o =>
            { o with
                status := .rejected
                rejected_at := some now
                rejected_by := some admin_id }))

/-- The store transaction of `_auto_reject_job` (the `expire` transition):
no-op when the order is missing, already out of `pending_payment` /
`awaiting_proof`, or the deadline has not passed (the job reschedules itself
without writing); otherwise `_mark_order_timeout` and persist. -/
def auto_reject (store : Store) (order_id : Int) (now : Int) : Store :=
  match find_order store order_id with
  | none => store
  | some order =>
    if ¬(order.status = .pending_payment ∨ order.status = .awaiting_proof) then
      store
    else if !is_order_expired order now then
      store
    else
      update_order store order_id (fun o => mark_order_timeout o now)

/-- A parsed store file before the `setdefault` calls of `_load_store`:
each top-level key may be absent. -/
structure RawStore where
  next_id : Option Int
  next_order_id : Option Int
  products : Option (List Product)
  orders : Option (List Order)
deriving Repr, DecidableEq

/-- State of the data file: absent, present but unparsable, or parsed. -/
inductive DiskState where
  | missing
  | corrupt
  | stored (raw : RawStore)
deriving Repr, DecidableEq

/-- The initial document written by `_ensure_store_exists`:
`{"next_id": 1, "next_order_id": 1, "products": [], "orders": []}`. -/
def default_raw : RawStore :=
  { next_id := some 1
    next_order_id := some 1
    products := some []
    orders := some [] }

/-- `_ensure_store_exists`: write the initial document when the file is absent. -/
def ensure_store_exists : DiskState → DiskState
  | .missing => .stored default_raw
  | d => d

/-- The four `setdefault` calls of `_load_store`. -/
def fill_defaults (raw : RawStore) : Store :=
  { next_id := raw.next_id.getD 1
    next_order_id := raw.next_order_id.getD 1
    products := raw.products.getD []
    orders := raw.orders.getD [] }

/-- The empty default document after `fill_defaults`. -/
def default_store : Store := fill_defaults default_raw

/-- `_load_store`: ensure the file exists, read it, fall back to the default
document on `JSONDecodeError`, and fill missing keys. Returns the loaded
store and the resulting disk state (the corrupt file is left in place). -/
def load_store (disk : DiskState) : Store × DiskState :=
  match ensure_store_exists disk with
  | .corrupt => (default_store, .corrupt)
  | .missing => (default_store, .missing)
  | .stored raw => (fill_defaults raw, .stored raw)

/-- One store-mutating operation of the order engine, with all the inputs the
corresponding handler receives. -/
inductive FullOp where
  | create (product_id qty buyer_id : Int) (buyer_name : String) (now : Int)
  | prompt (order_id user_id now : Int)
  | submit (order_id user_id : Int) (photos : List String) (now : Int)
  | approve (admin_ids : List Int) (admin_id order_id now : Int)
  | reject (admin_ids : List Int) (admin_id order_id now : Int)
  | expire (order_id now : Int)

/-- The store state after one operation. -/
def apply_full_op (store : Store) : FullOp → Store
  | .create pid qty bid bname now => (create_order store pid qty bid bname now).2
  | .prompt oid uid now => (prompt_proof store oid uid now).2
  | .submit oid uid photos now => (handle_proof store oid uid photos now).2
  | .approve admins aid oid now => (approve_order store admins aid oid now).2
  | .reject admins aid oid now => (reject_order store admins aid oid now).2
  | .expire oid now => auto_reject store oid now

/-- The store state after a sequence of operations. -/
def apply_full_ops (store : Store) (ops : List FullOp) : Store :=
  ops.foldl apply_full_op store

/-- Every product's stock is non-negative. -/
def stocks_nonneg (store : Store) : Prop :=
  ∀ p ∈ store.products, 0 ≤ p.stock

/-- Edges of the §4.3 transition graph:
`pending_payment → awaiting_proof → proof_submitted → paid | rejected`,
side exits `pending_payment | awaiting_proof → rejected_timeout` and
`proof_submitted → cancelled`. -/
def direct_edge : OrderStatus → OrderStatus → Bool
  | .pending_payment, .awaiting_proof => true
  | .awaiting_proof, .proof_submitted => true
  | .proof_submitted, .paid => true
  | .proof_submitted, .rejected => true
  | .pending_payment, .rejected_timeout => true
  | .awaiting_proof, .rejected_timeout => true
  | .proof_submitted, .cancelled => true
  | _, _ => false

/-- All seven statuses. -/
def all_statuses : List OrderStatus :=
  [.pending_payment, .awaiting_proof, .proof_submitted, .paid, .rejected,
   .rejected_timeout, .cancelled]

/-- Reachability along `direct_edge` by a path of at most `n` edges. -/
def reach_n : Nat → OrderStatus → OrderStatus → Bool
  | 0, a, b => a == b
  | n + 1, a, b =>
    a == b || all_statuses.any (fun c => direct_edge a c && reach_n n c b)

/-- `b` lies forward of `a` in the transition graph: reachable by some path
(the graph has seven nodes, so paths of length at most seven suffice). -/
def reaches (a b : OrderStatus) : Bool := reach_n 7 a b

/-- The four terminal statuses. -/
def is_terminal : OrderStatus → Bool
  | .paid => true
  | .rejected => true
  | .rejected_timeout => true
  | .cancelled => true
  | _ => false

/-- Concrete product used by the example stores: the §8 end-to-end widget. -/
def widget : Product :=
  { id := 1
    name := "Widget"
    price := 10000
    stock := 2
    description := "-"
    delivery := ""
    seller_id := 9
    created_at := 0 }

/-- Concrete order that has submitted proof, awaiting admin review. -/
def ex_order : Order :=
  { id := 1
    product_id := 1
    product_name := "Widget"
    qty := 1
    total := 10000
    buyer_id := 7
    buyer_name := "Buyer"
    status := .proof_submitted
    created_at := some 0
    proof_type := some "photo"
    proof_file_id := some "img1"
    proof_submitted_at := some 10 }

/-- Concrete store with one product and one `proof_submitted` order. -/
def ex_store : Store :=
  { next_id := 2
    next_order_id := 2
    products := [widget]
    orders := [ex_order] }

/-- Concrete order still in `pending_payment`, created at time 0. -/
def pending_order : Order :=
  { id := 1
    product_id := 1
    product_name := "Widget"
    qty := 1
    total := 10000
    buyer_id := 7
    buyer_name := "Buyer"
    status := .pending_payment
    created_at := some 0 }

/-- Concrete store with one product and one `pending_payment` order. -/
def pending_store : Store :=
  { next_id := 2
    next_order_id := 2
    products := [widget]
    orders := [pending_order] }

/-! Helper lemmas about `update_first` and list indexing. -/

theorem update_first_length {α : Type} (p : α → Bool) (f : α → α) :
    ∀ l : List α, (update_first p f l).length = l.length
  | [] => rfl
  | x :: xs => by
    by_cases hx : p x
    · simp [update_first, hx]
    · simp [update_first, hx, update_first_length p f xs]

theorem update_first_get {α : Type} (p : α → Bool) (f : α → α) :
    ∀ (l : List α) (i : Nat) (h : i < l.length)
      (h' : i < (update_first p f l).length),
      (update_first p f l).get ⟨i, h'⟩ = l.get ⟨i, h⟩
      ∨ ((update_first p f l).get ⟨i, h'⟩ = f (l.get ⟨i, h⟩)
          ∧ l.find? p = some (l.get ⟨i, h⟩)) := by
  intro l
  induction l with
  | nil => intro i h _; exact absurd h (Nat.not_lt_zero i)
  | cons x xs ih =>
    intro i h h'
    by_cases hx : p x
    · cases i with
      | zero =>
        right
        constructor
        · simp [update_first, hx]
        · simp [List.find?, hx]
      | succ j =>
        left
        simp [update_first, hx] at h' ⊢
    · cases i with
      | zero =>
        left
        simp [update_first, hx]
      | succ j =>
        have hj : j < xs.length := Nat.lt_of_succ_lt_succ (by simpa using h)
        have hj' : j < (update_first p f xs).length := by
          rw [update_first_length]; exact hj
        have := ih j hj hj'
        rcases this with heq | ⟨heq, hfind⟩
        · left
          simpa [update_first, hx] using heq
        · right
          constructor
          · simpa [update_first, hx] using heq
          · simp [List.find?, hx]
            simpa using hfind

theorem update_first_mem {α : Type} (p : α → Bool) (f : α → α) :
    ∀ (l : List α) (a : α), a ∈ update_first p f l →
      a ∈ l ∨ ∃ b, l.find? p = some b ∧ a = f b := by
  intro l
  induction l with
  | nil => intro a ha; exact absurd ha (by simp [update_first])
  | cons x xs ih =>
    intro a ha
    by_cases hx : p x
    · simp only [update_first, hx, if_pos] at ha
      rcases List.mem_cons.mp ha with rfl | hmem
      · right; exact ⟨x, by simp [List.find?, hx], rfl⟩
      · left; exact List.mem_cons_of_mem x hmem
    · simp only [update_first, hx, if_neg, not_false_iff] at ha
      rcases List.mem_cons.mp ha with rfl | hmem
      · left; exact List.mem_cons_self a xs
      · rcases ih a hmem with h | ⟨b, hfind, rfl⟩
        · left; exact List.mem_cons_of_mem x h
        · right; exact ⟨b, by simp [List.find?, hx]; simpa using hfind, rfl⟩

theorem find?_update_first {α : Type} (p : α → Bool) (f : α → α)
    (hf : ∀ a, p (f a) = p a) :
    ∀ l : List α, (update_first p f l).find? p = (l.find? p).map f := by
  intro l
  induction l with
  | nil => rfl
  | cons x xs ih =>
    by_cases hx : p x
    · simp [update_first, hx, List.find?, hf x]
    · simp [update_first, hx, List.find?, ih]

theorem get_append_left {α : Type} :
    ∀ (l₁ l₂ : List α) (i : Nat) (h : i < l₁.length)
      (h' : i < (l₁ ++ l₂).length),
      (l₁ ++ l₂).get ⟨i, h'⟩ = l₁.get ⟨i, h⟩ := by
  intro l₁
  induction l₁ with
  | nil => intro l₂ i h; exact absurd h (Nat.not_lt_zero i)
  | cons x xs ih =>
    intro l₂ i h h'
    cases i with
    | zero => rfl
    | succ j =>
      have hj : j < xs.length := Nat.lt_of_succ_lt_succ (by simpa using h)
      simpa using ih l₂ j hj (by simpa using h')

/-! Helper lemmas about the transition graph. -/

theorem reaches_refl (a : OrderStatus) : reaches a a = true := by
  revert a; decide

theorem reaches_trans (a b c : OrderStatus) (hab : reaches a b = true)
    (hbc : reaches b c = true) : reaches a c = true := by
  revert a b c; decide

theorem terminal_reaches_eq (a b : OrderStatus) (ha : is_terminal a = true)
    (hab : reaches a b = true) : b = a := by
  revert a b; decide

/-! Lookup lemmas for the record-mutation helpers. -/

theorem find_order_update_order (store : Store) (oid : Int) (f : Order → Order)
    (hf : ∀ o, (f o).id = o.id) :
    find_order (update_order store oid f) oid = (find_order store oid).map f := by
  unfold find_order update_order
  exact find?_update_first _ f (fun a => by simp [hf a]) store.orders

theorem get_product_update_product (store : Store) (pid : Int)
    (f : Product → Product) (hf : ∀ p, (f p).id = p.id) :
    get_product (update_product store pid f) pid = (get_product store pid).map f := by
  unfold get_product update_product
  exact find?_update_first _ f (fun a => by simp [hf a]) store.products

theorem update_order_products (store : Store) (oid : Int) (f : Order → Order) :
    (update_order store oid f).products = store.products := rfl

theorem update_product_orders (store : Store) (pid : Int) (f : Product → Product) :
    (update_product store pid f).orders = store.orders := rfl

/-! Branch equations for `_create_order`. -/

theorem create_order_eq_not_found (store : Store) (pid qty bid : Int)
    (bn : String) (now : Int) (hget : get_product store pid = none) :
    create_order store pid qty bid bn now = (.product_not_found, store) := by
  unfold create_order; rw [hget]

theorem create_order_eq_no_stock (store : Store) (pid qty bid : Int)
    (bn : String) (now : Int) (product : Product)
    (hget : get_product store pid = some product)
    (hstock : product.stock < qty) :
    create_order store pid qty bid bn now = (.insufficient_stock, store) := by
  unfold create_order; rw [hget]; simp [hstock]

theorem create_order_eq_ok (store : Store) (pid qty bid : Int)
    (bn : String) (now : Int) (product : Product)
    (hget : get_product store pid = some product)
    (hstock : ¬product.stock < qty) :
    create_order store pid qty bid bn now =
      (.created (new_order store product qty bid bn now),
        { store with
            next_order_id := store.next_order_id + 1
            orders := store.orders ++ [new_order store product qty bid bn now] }) := by
  unfold create_order; rw [hget]; simp [hstock]

/-! Branch equations for `_prompt_proof`. -/

theorem prompt_proof_eq_not_found (store : Store) (oid uid now : Int)
    (hfind : find_order store oid = none) :
    prompt_proof store oid uid now = (.order_not_found, store) := by
  unfold prompt_proof; rw [hfind]

theorem prompt_proof_eq_not_owner (store : Store) (oid uid now : Int)
    (order : Order) (hfind : find_order store oid = some order)
    (hown : order.buyer_id ≠ uid) :
    prompt_proof store oid uid now = (.not_owner, store) := by
  unfold prompt_proof; rw [hfind]; simp [hown]

theorem prompt_proof_eq_timed_out (store : Store) (oid uid now : Int)
    (order : Order) (hfind : find_order store oid = some order)
    (hown : order.buyer_id = uid) (hst : order.status = .rejected_timeout) :
    prompt_proof store oid uid now = (.already_timed_out, store) := by
  unfold prompt_proof; rw [hfind]; simp [hown, hst]

theorem prompt_proof_eq_processed (store : Store) (oid uid now : Int)
    (order : Order) (hfind : find_order store oid = some order)
    (hown : order.buyer_id = uid) (hst : order.status ≠ .rejected_timeout)
    (hact : ¬(order.status = .pending_payment ∨ order.status = .awaiting_proof)) :
    prompt_proof store oid uid now = (.already_processed, store) := by
  unfold prompt_proof; rw [hfind]; simp [hown, hst, hact]

theorem prompt_proof_eq_expired (store : Store) (oid uid now : Int)
    (order : Order) (hfind : find_order store oid = some order)
    (hown : order.buyer_id = uid)
    (hact : order.status = .pending_payment ∨ order.status = .awaiting_proof)
    (hexp : is_order_expired order now = true) :
    prompt_proof store oid uid now =
      (.expired_now, update_order store oid (fun o => mark_order_timeout o now)) := by
  unfold prompt_proof; rw [hfind]
  rcases hact with hst | hst <;> simp [hown, hst, hexp]

theorem prompt_proof_eq_awaiting (store : Store) (oid uid now : Int)
    (order : Order) (hfind : find_order store oid = some order)
    (hown : order.buyer_id = uid)
    (hact : order.status = .pending_payment ∨ order.status = .awaiting_proof)
    (hexp : is_order_expired order now = false) :
    prompt_proof store oid uid now =
      (.awaiting, update_order store oid (fun o => { o with status := .awaiting_proof })) := by
  unfold prompt_proof; rw [hfind]
  rcases hact with hst | hst <;> simp [hown, hst, hexp]

/-! Branch equations for `handle_proof`. -/

theorem handle_proof_eq_no_photo (store : Store) (oid uid : Int)
    (photos : List String) (now : Int) (hph : photos.getLast? = none) :
    handle_proof store oid uid photos now = (.no_photo, store) := by
  unfold handle_proof; rw [hph]

theorem handle_proof_eq_not_found (store : Store) (oid uid : Int)
    (photos : List String) (now : Int) (photo_id : String)
    (hph : photos.getLast? = some photo_id)
    (hfind : find_order store oid = none) :
    handle_proof store oid uid photos now = (.order_not_found, store) := by
  unfold handle_proof; rw [hph, hfind]

theorem handle_proof_eq_not_owner (store : Store) (oid uid : Int)
    (photos : List String) (now : Int) (photo_id : String)
    (hph : photos.getLast? = some photo_id)
    (order : Order) (hfind : find_order store oid = some order)
    (hown : order.buyer_id ≠ uid) :
    handle_proof store oid uid photos now = (.not_owner, store) := by
  unfold handle_proof; rw [hph, hfind]; simp [hown]

theorem handle_proof_eq_expired (store : Store) (oid uid : Int)
    (photos : List String) (now : Int) (photo_id : String)
    (hph : photos.getLast? = some photo_id)
    (order : Order) (hfind : find_order store oid = some order)
    (hown : order.buyer_id = uid)
    (hact : order.status = .pending_payment ∨ order.status = .awaiting_proof)
    (hexp : is_order_expired order now = true) :
    handle_proof store oid uid photos now =
      (.expired_now, update_order store oid (fun o => mark_order_timeout o now)) := by
  unfold handle_proof; rw [hph, hfind]
  rcases hact with hst | hst <;> simp [hown, hst, hexp]

theorem handle_proof_eq_submitted (store : Store) (oid uid : Int)
    (photos : List String) (now : Int) (photo_id : String)
    (hph : photos.getLast? = some photo_id)
    (order : Order) (hfind : find_order store oid = some order)
    (hown : order.buyer_id = uid)
    (hact : order.status = .pending_payment ∨ order.status = .awaiting_proof)
    (hexp : is_order_expired order now = false) :
    handle_proof store oid uid photos now =
      (.submitted, update_order store oid (fun o =>
        { o with
            status := .proof_submitted
            proof_type := some "photo"
            proof_file_id := some photo_id
            proof_submitted_at := some now })) := by
  unfold handle_proof; rw [hph, hfind]
  rcases hact with hst | hst <;> simp [hown, hst, hexp]

/-! Branch equations for `_approve_order`. -/

theorem approve_order_eq_forbidden (store : Store) (admins : List Int)
    (aid oid now : Int) (hadm : is_admin admins aid = false) :
    approve_order store admins aid oid now = (.forbidden, store) := by
  unfold approve_order; simp [hadm]

theorem approve_order_eq_not_found (store : Store) (admins : List Int)
    (aid oid now : Int) (hadm : is_admin admins aid = true)
    (hfind : find_order store oid = none) :
    approve_order store admins aid oid now = (.order_not_found, store) := by
  unfold approve_order; rw [hfind]; simp [hadm]

theorem approve_order_eq_wrong_state (store : Store) (admins : List Int)
    (aid oid now : Int) (hadm : is_admin admins aid = true)
    (order : Order) (hfind : find_order store oid = some order)
    (hst : order.status ≠ .proof_submitted) :
    approve_order store admins aid oid now = (.wrong_state, store) := by
  unfold approve_order; rw [hfind]; simp [hadm, hst]

theorem approve_order_eq_product_gone (store : Store) (admins : List Int)
    (aid oid now : Int) (hadm : is_admin admins aid = true)
    (order : Order) (hfind : find_order store oid = some order)
    (hst : order.status = .proof_submitted)
    (hget : get_product store order.product_id = none) :
    approve_order store admins aid oid now =
      (.product_gone_cancelled,
        update_order store oid (fun o =>
          { o with status := .cancelled, cancelled_at := some now })) := by
  unfold approve_order; rw [hfind]; simp [hadm, hst, hget]

theorem approve_order_eq_cancel_stock (store : Store) (admins : List Int)
    (aid oid now : Int) (hadm : is_admin admins aid = true)
    (order : Order) (hfind : find_order store oid = some order)
    (hst : order.status = .proof_submitted)
    (product : Product) (hget : get_product store order.product_id = some product)
    (hstock : product.stock < order.qty) :
    approve_order store admins aid oid now =
      (.insufficient_stock_cancelled,
        update_order store oid (fun o =>
          { o with status := .cancelled, cancelled_at := some now })) := by
  unfold approve_order; rw [hfind]; simp [hadm, hst, hget, hstock]

theorem approve_order_eq_approved (store : Store) (admins : List Int)
    (aid oid now : Int) (hadm : is_admin admins aid = true)
    (order : Order) (hfind : find_order store oid = some order)
    (hst : order.status = .proof_submitted)
    (product : Product) (hget : get_product store order.product_id = some product)
    (hstock : ¬product.stock < order.qty) :
    approve_order store admins aid oid now =
      (.approved,
        update_order
          (update_product store order.product_id
            (fun p => { p with stock := p.stock - order.qty }))
          oid
          (fun o =>
            { o with
                status := .paid
                paid_at := some now
                approved_by := some aid })) := by
  unfold approve_order; rw [hfind]; simp [hadm, hst, hget, hstock]

/-! Branch equations for `_reject_order`. -/

theorem reject_order_eq_forbidden (store : Store) (admins : List Int)
    (aid oid now : Int) (hadm : is_admin admins aid = false) :
    reject_order store admins aid oid now = (.forbidden, store) := by
  unfold reject_order; simp [hadm]

theorem reject_order_eq_not_found (store : Store) (admins : List Int)
    (aid oid now : Int) (hadm : is_admin admins aid = true)
    (hfind : find_order store oid = none) :
    reject_order store admins aid oid now = (.order_not_found, store) := by
  unfold reject_order; rw [hfind]; simp [hadm]

theorem reject_order_eq_processed (store : Store) (admins : List Int)
    (aid oid now : Int) (hadm : is_admin admins aid = true)
    (order : Order) (hfind : find_order store oid = some order)
    (hact : ¬(order.status = .proof_submitted ∨ order.status = .pending_payment
        ∨ order.status = .awaiting_proof)) :
    reject_order store admins aid oid now = (.already_processed, store) := by
  unfold reject_order; rw [hfind]; simp [hadm, hact]

theorem reject_order_eq_ok (store : Store) (admins : List Int)
    (aid oid now : Int) (hadm : is_admin admins aid = true)
    (order : Order) (hfind : find_order store oid = some order)
    (hact : order.status = .proof_submitted ∨ order.status = .pending_payment
        ∨ order.status = .awaiting_proof) :
    reject_order store admins aid oid now =
      (.rejected_ok,
        update_order store oid (fun o =>
          { o with
              status := .rejected
              rejected_at := some now
              rejected_by := some aid })) := by
  unfold reject_order; rw [hfind]
  rcases hact with hst | hst | hst <;> simp [hadm, hst]

/-! Branch equations for the `_auto_reject_job` store transaction. -/

theorem auto_reject_eq_not_found (store : Store) (oid now : Int)
    (hfind : find_order store oid = none) :
    auto_reject store oid now = store := by
  unfold auto_reject; rw [hfind]

theorem auto_reject_eq_wrong_status (store : Store) (oid now : Int)
    (order : Order) (hfind : find_order store oid = some order)
    (hact : ¬(order.status = .pending_payment ∨ order.status = .awaiting_proof)) :
    auto_reject store oid now = store := by
  unfold auto_reject; rw [hfind]; simp [hact]

theorem auto_reject_eq_not_expired (store : Store) (oid now : Int)
    (order : Order) (hfind : find_order store oid = some order)
    (hexp : is_order_expired order now = false) :
    auto_reject store oid now = store := by
  unfold auto_reject; rw [hfind]
  by_cases hact : order.status = .pending_payment ∨ order.status = .awaiting_proof
  · rcases hact with hst | hst <;> simp [hst, hexp]
  · simp [hact]

theorem auto_reject_eq_timeout (store : Store) (oid now : Int)
    (order : Order) (hfind : find_order store oid = some order)
    (hact : order.status = .pending_payment ∨ order.status = .awaiting_proof)
    (hexp : is_order_expired order now = true) :
    auto_reject store oid now =
      update_order store oid (fun o => mark_order_timeout o now) := by
  unfold auto_reject; rw [hfind]
  rcases hact with hst | hst <;> simp [hst, hexp]

/-! Product-collection preservation: only approval touches `products`. -/

theorem stocks_nonneg_of_products_eq (s t : Store) (h : t.products = s.products)
    (hinv : stocks_nonneg s) : stocks_nonneg t := by
  intro p hp
  rw [h] at hp
  exact hinv p hp

theorem create_order_products (store : Store) (pid qty bid : Int)
    (bn : String) (now : Int) :
    (create_order store pid qty bid bn now).2.products = store.products := by
  unfold create_order
  repeat' split
  all_goals rfl

theorem prompt_proof_products (store : Store) (oid uid now : Int) :
    (prompt_proof store oid uid now).2.products = store.products := by
  unfold prompt_proof
  repeat' split
  all_goals rfl

theorem handle_proof_products (store : Store) (oid uid : Int)
    (photos : List String) (now : Int) :
    (handle_proof store oid uid photos now).2.products = store.products := by
  unfold handle_proof
  repeat' split
  all_goals rfl

theorem reject_order_products (store : Store) (admins : List Int)
    (aid oid now : Int) :
    (reject_order store admins aid oid now).2.products = store.products := by
  unfold reject_order
  repeat' split
  all_goals rfl

theorem auto_reject_products (store : Store) (oid now : Int) :
    (auto_reject store oid now).products = store.products := by
  unfold auto_reject
  repeat' split
  all_goals rfl

/-! Non-negativity of stock through approval. -/

theorem update_product_nonneg (store : Store) (pid : Int) (f : Product → Product)
    (hinv : stocks_nonneg store)
    (hstep : ∀ p, get_product store pid = some p → 0 ≤ (f p).stock) :
    stocks_nonneg (update_product store pid f) := by
  intro q hq
  have hq' : q ∈ update_first (fun item => item.id == pid) f store.products := hq
  rcases update_first_mem (fun item => item.id == pid) f store.products q hq' with
    hmem | ⟨b, hfind, rfl⟩
  · exact hinv q hmem
  · exact hstep b hfind

theorem approve_order_nonneg (store : Store) (admins : List Int) (aid oid now : Int)
    (hinv : stocks_nonneg store) :
    stocks_nonneg (approve_order store admins aid oid now).2 := by
  cases hadm : is_admin admins aid with
  | false => rw [approve_order_eq_forbidden _ _ _ _ _ hadm]; exact hinv
  | true =>
    cases hfind : find_order store oid with
    | none => rw [approve_order_eq_not_found _ _ _ _ _ hadm hfind]; exact hinv
    | some order =>
      by_cases hst : order.status = .proof_submitted
      · cases hget : get_product store order.product_id with
        | none =>
          rw [approve_order_eq_product_gone _ _ _ _ _ hadm order hfind hst hget]
          exact stocks_nonneg_of_products_eq store _ rfl hinv
        | some product =>
          by_cases hstock : product.stock < order.qty
          · rw [approve_order_eq_cancel_stock _ _ _ _ _ hadm order hfind hst
              product hget hstock]
            exact stocks_nonneg_of_products_eq store _ rfl hinv
          · rw [approve_order_eq_approved _ _ _ _ _ hadm order hfind hst
              product hget hstock]
            refine stocks_nonneg_of_products_eq
              (update_product store order.product_id
                (fun p => { p with stock := p.stock - order.qty })) _ rfl ?_
            refine update_product_nonneg store order.product_id _ hinv ?_
            intro p hp
            rw [hget] at hp
            cases hp
            show 0 ≤ product.stock - order.qty
            omega
      · rw [approve_order_eq_wrong_state _ _ _ _ _ hadm order hfind hst]; exact hinv

theorem apply_full_op_nonneg (store : Store) (op : FullOp)
    (hinv : stocks_nonneg store) : stocks_nonneg (apply_full_op store op) := by
  cases op with
  | create pid qty bid bn now =>
    exact stocks_nonneg_of_products_eq store _ (create_order_products store pid qty bid bn now) hinv
  | prompt oid uid now =>
    exact stocks_nonneg_of_products_eq store _ (prompt_proof_products store oid uid now) hinv
  | submit oid uid photos now =>
    exact stocks_nonneg_of_products_eq store _ (handle_proof_products store oid uid photos now) hinv
  | approve admins aid oid now =>
    exact approve_order_nonneg store admins aid oid now hinv
  | reject admins aid oid now =>
    exact stocks_nonneg_of_products_eq store _ (reject_order_products store admins aid oid now) hinv
  | expire oid now =>
    exact stocks_nonneg_of_products_eq store _ (auto_reject_products store oid now) hinv

/-- Claim C1: starting from a store in which every product's stock is
non-negative, every product's stock stays non-negative after any sequence of
order-engine operations (in particular any sequence of `createOrder` and
`approveOrder` calls, which the operation list subsumes): `_approve_order`
decrements stock by the order's qty only after re-checking `stock >= qty`
inside the lock, and no other order operation touches `products`. -/
theorem stock_never_negative (store : Store) (ops : List FullOp)
    (hinv : stocks_nonneg store) : stocks_nonneg (apply_full_ops store ops) := by
  induction ops generalizing store with
  | nil => exact hinv
  | cons op rest ih => exact ih (apply_full_op store op) (apply_full_op_nonneg store op hinv)

/-- Witness for C1: the concrete example store, a checkout followed by an
approval, evaluated. -/
theorem stock_never_negative_witness :
    stocks_nonneg (apply_full_ops ex_store
      [.create 1 1 7 "Buyer" 0, .approve [9] 9 1 100]) :=
  stock_never_negative ex_store [.create 1 1 7 "Buyer" 0, .approve [9] 9 1 100]
    (by unfold stocks_nonneg; decide)

/-- Claim C7: the `expire` transition is idempotent: applying
`_auto_reject_job`'s store transaction twice with the same order id and time
equals applying it once — the second call finds the order's status outside
`pending_payment`/`awaiting_proof` (or the same unexpired order) and performs
no write. -/
theorem auto_reject_idempotent (store : Store) (oid now : Int) :
    auto_reject (auto_reject store oid now) oid now = auto_reject store oid now := by
  cases hfind : find_order store oid with
  | none =>
    rw [auto_reject_eq_not_found store oid now hfind,
      auto_reject_eq_not_found store oid now hfind]
  | some order =>
    by_cases hact : order.status = .pending_payment ∨ order.status = .awaiting_proof
    · cases hexp : is_order_expired order now with
      | true =>
        rw [auto_reject_eq_timeout store oid now order hfind hact hexp]
        have hfind2 : find_order (update_order store oid (fun o => mark_order_timeout o now)) oid
            = some (mark_order_timeout order now) := by
          rw [find_order_update_order store oid (fun o => mark_order_timeout o now)
            (fun o => rfl), hfind]
          rfl
        refine auto_reject_eq_wrong_status _ oid now _ hfind2 ?_
        simp [mark_order_timeout]
      | false =>
        rw [auto_reject_eq_not_expired store oid now order hfind hexp,
          auto_reject_eq_not_expired store oid now order hfind hexp]
    · rw [auto_reject_eq_wrong_status store oid now order hfind hact,
        auto_reject_eq_wrong_status store oid now order hfind hact]

/-- Claim C8: `_load_store` never fails: with no data file it returns the
default empty document (both counters 1, empty collections) and persists it;
with a corrupt (unparsable) file it returns the default document instead of
raising; with a parsed file it returns it with missing keys defaulted. -/
theorem load_store_total :
    load_store .missing = (default_store, .stored default_raw)
    ∧ load_store .corrupt = (default_store, .corrupt)
    ∧ default_store.next_id = 1
    ∧ default_store.next_order_id = 1
    ∧ default_store.products = []
    ∧ default_store.orders = []
    ∧ ∀ raw : RawStore, load_store (.stored raw) = (fill_defaults raw, .stored raw) :=
  ⟨rfl, rfl, rfl, rfl, rfl, rfl, fun _ => rfl⟩

/-- Claim C3: `_create_order` fails `NotFound` when the product is absent and
`InsufficientStock` when `stock < qty`, leaving the store unchanged in both
cases; otherwise it assigns `next_order_id`, increments the counter, appends a
`pending_payment` order snapshotting the product name and `price * qty`, and
leaves `products` (hence stock) untouched. -/
theorem create_order_spec (store : Store) (pid qty bid : Int) (bn : String) (now : Int) :
    (get_product store pid = none →
      create_order store pid qty bid bn now = (.product_not_found, store))
    ∧ (∀ product, get_product store pid = some product → product.stock < qty →
      create_order store pid qty bid bn now = (.insufficient_stock, store))
    ∧ (∀ product, get_product store pid = some product → ¬product.stock < qty →
      (create_order store pid qty bid bn now).1
          = .created (new_order store product qty bid bn now)
      ∧ (create_order store pid qty bid bn now).2.next_order_id = store.next_order_id + 1
      ∧ (create_order store pid qty bid bn now).2.orders
          = store.orders ++ [new_order store product qty bid bn now]
      ∧ (create_order store pid qty bid bn now).2.products = store.products
      ∧ (new_order store product qty bid bn now).id = store.next_order_id
      ∧ (new_order store product qty bid bn now).status = .pending_payment
      ∧ (new_order store product qty bid bn now).product_name = product.name
      ∧ (new_order store product qty bid bn now).total = product.price * qty) := by
  refine ⟨fun h => create_order_eq_not_found store pid qty bid bn now h,
    fun product hget hstock => create_order_eq_no_stock store pid qty bid bn now product hget hstock,
    fun product hget hstock => ?_⟩
  rw [create_order_eq_ok store pid qty bid bn now product hget hstock]
  exact ⟨rfl, rfl, rfl, rfl, rfl, rfl, rfl, rfl⟩

/-- Witness for C3: checkout of one widget from the example store. -/
theorem create_order_spec_witness :
    (create_order ex_store 1 1 7 "Buyer" 0).1
      = .created (new_order ex_store widget 1 7 "Buyer" 0) :=
  ((create_order_spec ex_store 1 1 7 "Buyer" 0).2.2 widget rfl (by decide)).1

/-- Claim C6: `_reject_order` by an admin, on an existing order, succeeds
exactly when the status is `proof_submitted`, `pending_payment` or
`awaiting_proof`; from any terminal status it fails `AlreadyProcessed` with
the store unchanged; on success it sets `rejected` with `rejected_at` and
`rejected_by`, and `products` (hence every stock) is unchanged. -/
theorem reject_order_spec (store : Store) (admins : List Int) (aid oid now : Int)
    (order : Order) (hadm : is_admin admins aid = true)
    (hfind : find_order store oid = some order) :
    ((reject_order store admins aid oid now).1 = .rejected_ok
      ↔ (order.status = .proof_submitted ∨ order.status = .pending_payment
          ∨ order.status = .awaiting_proof))
    ∧ (is_terminal order.status = true →
        reject_order store admins aid oid now = (.already_processed, store))
    ∧ ((order.status = .proof_submitted ∨ order.status = .pending_payment
          ∨ order.status = .awaiting_proof) →
        find_order (reject_order store admins aid oid now).2 oid
          = some { order with
              status := .rejected
              rejected_at := some now
              rejected_by := some aid }
        ∧ (reject_order store admins aid oid now).2.products = store.products) := by
  by_cases hact : order.status = .proof_submitted ∨ order.status = .pending_payment
      ∨ order.status = .awaiting_proof
  · rw [reject_order_eq_ok store admins aid oid now hadm order hfind hact]
    refine ⟨by simp [hact], ?_, ?_⟩
    · intro ht
      rcases hact with h | h | h <;> rw [h] at ht <;> exact absurd ht (by decide)
    · intro _
      refine ⟨?_, rfl⟩
      have h1 := find_order_update_order store oid
        (fun o => { o with
            status := OrderStatus.rejected
            rejected_at := some now
            rejected_by := some aid }) (fun o => rfl)
      dsimp only
      rw [h1, hfind]
      rfl
  · rw [reject_order_eq_processed store admins aid oid now hadm order hfind hact]
    refine ⟨by simp [hact], fun _ => rfl, fun h => absurd h hact⟩

/-- Witness for C6: admin 9 rejects the submitted example order. -/
theorem reject_order_spec_witness :
    (reject_order ex_store [9] 9 1 50).1 = .rejected_ok :=
  ((reject_order_spec ex_store [9] 9 1 50 ex_order (by decide) rfl).1).mpr (Or.inl rfl)

theorem handle_proof_eq_timed_out (store : Store) (oid uid : Int)
    (photos : List String) (now : Int) (photo_id : String)
    (hph : photos.getLast? = some photo_id)
    (order : Order) (hfind : find_order store oid = some order)
    (hown : order.buyer_id = uid) (hst : order.status = .rejected_timeout) :
    handle_proof store oid uid photos now = (.already_timed_out, store) := by
  unfold handle_proof; rw [hph, hfind]; simp [hown, hst]

theorem handle_proof_eq_processed (store : Store) (oid uid : Int)
    (photos : List String) (now : Int) (photo_id : String)
    (hph : photos.getLast? = some photo_id)
    (order : Order) (hfind : find_order store oid = some order)
    (hown : order.buyer_id = uid) (hst : order.status ≠ .rejected_timeout)
    (hact : ¬(order.status = .pending_payment ∨ order.status = .awaiting_proof)) :
    handle_proof store oid uid photos now = (.already_processed, store) := by
  unfold handle_proof; rw [hph, hfind]; simp [hown, hst, hact]

/-- Claim C2: `_approve_order` called by a non-admin fails `Forbidden`; on an
order whose status is not `proof_submitted` it fails `WrongState` with no
state change; when the product no longer exists or has `stock < qty` the
order is `cancelled` with `cancelled_at` recorded (products untouched);
otherwise stock is decremented by `qty` and the order becomes `paid` with
`paid_at`/`approved_by` recorded — all in one store transaction. -/
theorem approve_order_spec (store : Store) (admins : List Int) (aid oid now : Int) :
    (is_admin admins aid = false →
      approve_order store admins aid oid now = (.forbidden, store))
    ∧ (∀ order, is_admin admins aid = true → find_order store oid = some order →
        order.status ≠ .proof_submitted →
        approve_order store admins aid oid now = (.wrong_state, store))
    ∧ (∀ order, is_admin admins aid = true → find_order store oid = some order →
        order.status = .proof_submitted →
        get_product store order.product_id = none →
        (approve_order store admins aid oid now).1 = .product_gone_cancelled
        ∧ find_order (approve_order store admins aid oid now).2 oid
            = some { order with status := .cancelled, cancelled_at := some now }
        ∧ (approve_order store admins aid oid now).2.products = store.products)
    ∧ (∀ order product, is_admin admins aid = true → find_order store oid = some order →
        order.status = .proof_submitted →
        get_product store order.product_id = some product →
        product.stock < order.qty →
        (approve_order store admins aid oid now).1 = .insufficient_stock_cancelled
        ∧ find_order (approve_order store admins aid oid now).2 oid
            = some { order with status := .cancelled, cancelled_at := some now }
        ∧ (approve_order store admins aid oid now).2.products = store.products)
    ∧ (∀ order product, is_admin admins aid = true → find_order store oid = some order →
        order.status = .proof_submitted →
        get_product store order.product_id = some product →
        ¬product.stock < order.qty →
        (approve_order store admins aid oid now).1 = .approved
        ∧ find_order (approve_order store admins aid oid now).2 oid
            = some { order with
                status := .paid
                paid_at := some now
                approved_by := some aid }
        ∧ get_product (approve_order store admins aid oid now).2 order.product_id
            = some { product with stock := product.stock - order.qty }) := by
  refine ⟨?_, ?_, ?_, ?_, ?_⟩
  · intro hadm
    exact approve_order_eq_forbidden store admins aid oid now hadm
  · intro order hadm hfind hst
    exact approve_order_eq_wrong_state store admins aid oid now hadm order hfind hst
  · intro order hadm hfind hst hget
    rw [approve_order_eq_product_gone store admins aid oid now hadm order hfind hst hget]
    refine ⟨rfl, ?_, rfl⟩
    have h1 := find_order_update_order store oid
      (fun o => { o with
          status := OrderStatus.cancelled
          cancelled_at := some now }) (fun o => rfl)
    dsimp only
    rw [h1, hfind]
    rfl
  · intro order product hadm hfind hst hget hstock
    rw [approve_order_eq_cancel_stock store admins aid oid now hadm order hfind hst
      product hget hstock]
    refine ⟨rfl, ?_, rfl⟩
    have h1 := find_order_update_order store oid
      (fun o => { o with
          status := OrderStatus.cancelled
          cancelled_at := some now }) (fun o => rfl)
    dsimp only
    rw [h1, hfind]
    rfl
  · intro order product hadm hfind hst hget hstock
    rw [approve_order_eq_approved store admins aid oid now hadm order hfind hst
      product hget hstock]
    refine ⟨rfl, ?_, ?_⟩
    · have h1 := find_order_update_order
        (update_product store order.product_id
          (fun p => { p with stock := p.stock - order.qty })) oid
        (fun o => { o with
            status := OrderStatus.paid
            paid_at := some now
            approved_by := some aid }) (fun o => rfl)
      dsimp only
      rw [h1]
      have h2 : find_order
          (update_product store order.product_id
            (fun p => { p with stock := p.stock - order.qty })) oid
          = find_order store oid := rfl
      rw [h2, hfind]
      rfl
    · have h3 := get_product_update_product store order.product_id
        (fun p => { p with stock := p.stock - order.qty }) (fun p => rfl)
      dsimp only
      show get_product
        (update_product store order.product_id
          (fun p => { p with stock := p.stock - order.qty })) order.product_id = _
      rw [h3, hget]
      rfl

/-- Witness for C2: admin 9 approves the submitted example order; the widget
stock drops from 2 to 1 and the order is `paid`. -/
theorem approve_order_spec_witness :
    (approve_order ex_store [9] 9 1 100).1 = .approved :=
  ((approve_order_spec ex_store [9] 9 1 100).2.2.2.2 ex_order widget (by decide)
    rfl rfl rfl (by decide)).1

/-- Claim C9: proof submission succeeds only with a photo attachment: with no
photo in the message (`message.photo` empty, e.g. a document) `handle_proof`
reports an error before touching the store, and on every successful
submission the stored `proof_type` is the constant `"photo"`. -/
theorem proof_requires_photo (store : Store) (oid uid : Int)
    (photos : List String) (now : Int) :
    (photos.getLast? = none →
      handle_proof store oid uid photos now = (.no_photo, store))
    ∧ ((handle_proof store oid uid photos now).1 = .submitted →
      ∃ order, find_order (handle_proof store oid uid photos now).2 oid = some order
        ∧ order.proof_type = some "photo") := by
  constructor
  · intro hph
    exact handle_proof_eq_no_photo store oid uid photos now hph
  · intro hres
    cases hph : photos.getLast? with
    | none =>
      rw [handle_proof_eq_no_photo store oid uid photos now hph] at hres
      simp at hres
    | some photo_id =>
      cases hfind : find_order store oid with
      | none =>
        rw [handle_proof_eq_not_found store oid uid photos now photo_id hph hfind] at hres
        simp at hres
      | some order =>
        by_cases hown : order.buyer_id = uid
        · by_cases hact : order.status = .pending_payment ∨ order.status = .awaiting_proof
          · cases hexp : is_order_expired order now with
            | true =>
              rw [handle_proof_eq_expired store oid uid photos now photo_id hph
                order hfind hown hact hexp] at hres
              simp at hres
            | false =>
              rw [handle_proof_eq_submitted store oid uid photos now photo_id hph
                order hfind hown hact hexp]
              refine ⟨{ order with
                  status := .proof_submitted
                  proof_type := some "photo"
                  proof_file_id := some photo_id
                  proof_submitted_at := some now }, ?_, rfl⟩
              have h1 := find_order_update_order store oid
                (fun o => { o with
                    status := OrderStatus.proof_submitted
                    proof_type := some "photo"
                    proof_file_id := some photo_id
                    proof_submitted_at := some now }) (fun o => rfl)
              dsimp only
              rw [h1, hfind]
              rfl
          · by_cases hto : order.status = .rejected_timeout
            · rw [handle_proof_eq_timed_out store oid uid photos now photo_id hph
                order hfind hown hto] at hres
              simp at hres
            · rw [handle_proof_eq_processed store oid uid photos now photo_id hph
                order hfind hown hto hact] at hres
              simp at hres
        · rw [handle_proof_eq_not_owner store oid uid photos now photo_id hph
            order hfind hown] at hres
          simp at hres

/-- Witness for C9: buyer 7 submits a photo for the pending example order at
time 10, before the deadline. -/
theorem proof_requires_photo_witness :
    ∃ order, find_order (handle_proof pending_store 1 7 ["img1"] 10).2 1 = some order
      ∧ order.proof_type = some "photo" :=
  (proof_requires_photo pending_store 1 7 ["img1"] 10).2 (by decide)

/-- Claim C10: error atomicity for lookup and ownership failures: when
`_create_order`, `_prompt_proof`, `handle_proof`, `_approve_order` or
`_reject_order` fails because the referenced product/order does not exist or
the caller is not the order's buyer or not an admin, the store document is
returned unchanged (no save happens in those branches). -/
theorem error_atomicity (store : Store) (admins : List Int) :
    (∀ pid qty bid bn now, get_product store pid = none →
      (create_order store pid qty bid bn now).2 = store)
    ∧ (∀ oid uid now, find_order store oid = none →
      (prompt_proof store oid uid now).2 = store)
    ∧ (∀ oid uid now order, find_order store oid = some order →
      order.buyer_id ≠ uid → (prompt_proof store oid uid now).2 = store)
    ∧ (∀ oid uid photos now photo_id, (photos : List String).getLast? = some photo_id →
      find_order store oid = none → (handle_proof store oid uid photos now).2 = store)
    ∧ (∀ oid uid photos now photo_id order, (photos : List String).getLast? = some photo_id →
      find_order store oid = some order → order.buyer_id ≠ uid →
      (handle_proof store oid uid photos now).2 = store)
    ∧ (∀ aid oid now, is_admin admins aid = false →
      (approve_order store admins aid oid now).2 = store)
    ∧ (∀ aid oid now, is_admin admins aid = true → find_order store oid = none →
      (approve_order store admins aid oid now).2 = store)
    ∧ (∀ aid oid now, is_admin admins aid = false →
      (reject_order store admins aid oid now).2 = store)
    ∧ (∀ aid oid now, is_admin admins aid = true → find_order store oid = none →
      (reject_order store admins aid oid now).2 = store) := by
  refine ⟨?_, ?_, ?_, ?_, ?_, ?_, ?_, ?_, ?_⟩
  · intro pid qty bid bn now h
    rw [create_order_eq_not_found store pid qty bid bn now h]
  · intro oid uid now h
    rw [prompt_proof_eq_not_found store oid uid now h]
  · intro oid uid now order hfind hown
    rw [prompt_proof_eq_not_owner store oid uid now order hfind hown]
  · intro oid uid photos now photo_id hph hfind
    rw [handle_proof_eq_not_found store oid uid photos now photo_id hph hfind]
  · intro oid uid photos now photo_id order hph hfind hown
    rw [handle_proof_eq_not_owner store oid uid photos now photo_id hph order hfind hown]
  · intro aid oid now hadm
    rw [approve_order_eq_forbidden store admins aid oid now hadm]
  · intro aid oid now hadm hfind
    rw [approve_order_eq_not_found store admins aid oid now hadm hfind]
  · intro aid oid now hadm
    rw [reject_order_eq_forbidden store admins aid oid now hadm]
  · intro aid oid now hadm hfind
    rw [reject_order_eq_not_found store admins aid oid now hadm hfind]

/-- Witness for C10: a non-admin approval attempt leaves the example store
byte-for-byte unchanged. -/
theorem error_atomicity_witness :
    (approve_order ex_store [] 7 1 100).2 = ex_store :=
  (error_atomicity ex_store []).2.2.2.2.2.1 7 1 100 rfl

/-! Forward movement of order statuses along the transition graph. -/

theorem update_order_length (store : Store) (oid : Int) (f : Order → Order) :
    (update_order store oid f).orders.length = store.orders.length := by
  show (update_first (fun item => item.id == oid) f store.orders).length
    = store.orders.length
  exact update_first_length (fun item => item.id == oid) f store.orders

theorem update_order_forward (store : Store) (oid : Int) (f : Order → Order)
    (hstep : ∀ o, find_order store oid = some o → reaches o.status (f o).status = true)
    (i : Nat) (h : i < store.orders.length)
    (h' : i < (update_order store oid f).orders.length) :
    reaches (store.orders.get ⟨i, h⟩).status
      ((update_order store oid f).orders.get ⟨i, h'⟩).status = true := by
  have h'' : i < (update_first (fun item => item.id == oid) f store.orders).length := h'
  have hget := update_first_get (fun item => item.id == oid) f store.orders i h h''
  show reaches (store.orders.get ⟨i, h⟩).status
    ((update_first (fun item => item.id == oid) f store.orders).get ⟨i, h''⟩).status = true
  rcases hget with heq | ⟨heq, hfind⟩
  · rw [heq]
    exact reaches_refl _
  · rw [heq]
    exact hstep _ hfind

theorem apply_full_op_forward (store : Store) (op : FullOp) (i : Nat)
    (h : i < store.orders.length) :
    ∃ h' : i < (apply_full_op store op).orders.length,
      reaches (store.orders.get ⟨i, h⟩).status
        ((apply_full_op store op).orders.get ⟨i, h'⟩).status = true := by
  cases op with
  | create pid qty bid bn now =>
    cases hget : get_product store pid with
    | none =>
      rw [show apply_full_op store (.create pid qty bid bn now)
          = (create_order store pid qty bid bn now).2 from rfl,
        create_order_eq_not_found store pid qty bid bn now hget]
      exact ⟨h, reaches_refl _⟩
    | some product =>
      by_cases hstock : product.stock < qty
      · rw [show apply_full_op store (.create pid qty bid bn now)
            = (create_order store pid qty bid bn now).2 from rfl,
          create_order_eq_no_stock store pid qty bid bn now product hget hstock]
        exact ⟨h, reaches_refl _⟩
      · rw [show apply_full_op store (.create pid qty bid bn now)
            = (create_order store pid qty bid bn now).2 from rfl,
          create_order_eq_ok store pid qty bid bn now product hget hstock]
        dsimp only
        have hlen : i < (store.orders ++ [new_order store product qty bid bn now]).length := by
          rw [List.length_append]
          exact Nat.lt_of_lt_of_le h (Nat.le_add_right _ _)
        refine ⟨hlen, ?_⟩
        rw [get_append_left store.orders [new_order store product qty bid bn now] i h hlen]
        exact reaches_refl _
  | prompt oid uid now =>
    cases hfind : find_order store oid with
    | none =>
      rw [show apply_full_op store (.prompt oid uid now)
          = (prompt_proof store oid uid now).2 from rfl,
        prompt_proof_eq_not_found store oid uid now hfind]
      exact ⟨h, reaches_refl _⟩
    | some order =>
      by_cases hown : order.buyer_id = uid
      · by_cases hact : order.status = .pending_payment ∨ order.status = .awaiting_proof
        · cases hexp : is_order_expired order now with
          | true =>
            rw [show apply_full_op store (.prompt oid uid now)
                = (prompt_proof store oid uid now).2 from rfl,
              prompt_proof_eq_expired store oid uid now order hfind hown hact hexp]
            dsimp only
            refine ⟨by rw [update_order_length]; exact h, ?_⟩
            refine update_order_forward store oid _ ?_ i h _
            intro o ho
            rw [hfind] at ho
            injection ho with ho
            subst ho
            rcases hact with hs | hs <;> rw [hs] <;> rfl
          | false =>
            rw [show apply_full_op store (.prompt oid uid now)
                = (prompt_proof store oid uid now).2 from rfl,
              prompt_proof_eq_awaiting store oid uid now order hfind hown hact hexp]
            dsimp only
            refine ⟨by rw [update_order_length]; exact h, ?_⟩
            refine update_order_forward store oid _ ?_ i h _
            intro o ho
            rw [hfind] at ho
            injection ho with ho
            subst ho
            rcases hact with hs | hs <;> rw [hs] <;> rfl
        · by_cases hto : order.status = .rejected_timeout
          · rw [show apply_full_op store (.prompt oid uid now)
                = (prompt_proof store oid uid now).2 from rfl,
              prompt_proof_eq_timed_out store oid uid now order hfind hown hto]
            exact ⟨h, reaches_refl _⟩
          · rw [show apply_full_op store (.prompt oid uid now)
                = (prompt_proof store oid uid now).2 from rfl,
              prompt_proof_eq_processed store oid uid now order hfind hown hto hact]
            exact ⟨h, reaches_refl _⟩
      · rw [show apply_full_op store (.prompt oid uid now)
            = (prompt_proof store oid uid now).2 from rfl,
          prompt_proof_eq_not_owner store oid uid now order hfind hown]
        exact ⟨h, reaches_refl _⟩
  | submit oid uid photos now =>
    cases hph : photos.getLast? with
    | none =>
      rw [show apply_full_op store (.submit oid uid photos now)
          = (handle_proof store oid uid photos now).2 from rfl,
        handle_proof_eq_no_photo store oid uid photos now hph]
      exact ⟨h, reaches_refl _⟩
    | some photo_id =>
      cases hfind : find_order store oid with
      | none =>
        rw [show apply_full_op store (.submit oid uid photos now)
            = (handle_proof store oid uid photos now).2 from rfl,
          handle_proof_eq_not_found store oid uid photos now photo_id hph hfind]
        exact ⟨h, reaches_refl _⟩
      | some order =>
        by_cases hown : order.buyer_id = uid
        · by_cases hact : order.status = .pending_payment ∨ order.status = .awaiting_proof
          · cases hexp : is_order_expired order now with
            | true =>
              rw [show apply_full_op store (.submit oid uid photos now)
                  = (handle_proof store oid uid photos now).2 from rfl,
                handle_proof_eq_expired store oid uid photos now photo_id hph
                  order hfind hown hact hexp]
              dsimp only
              refine ⟨by rw [update_order_length]; exact h, ?_⟩
              refine update_order_forward store oid _ ?_ i h _
              intro o ho
              rw [hfind] at ho
              injection ho with ho
              subst ho
              rcases hact with hs | hs <;> rw [hs] <;> rfl
            | false =>
              rw [show apply_full_op store (.submit oid uid photos now)
                  = (handle_proof store oid uid photos now).2 from rfl,
                handle_proof_eq_submitted store oid uid photos now photo_id hph
                  order hfind hown hact hexp]
              dsimp only
              refine ⟨by rw [update_order_length]; exact h, ?_⟩
              refine update_order_forward store oid _ ?_ i h _
              intro o ho
              rw [hfind] at ho
              injection ho with ho
              subst ho
              rcases hact with hs | hs <;> rw [hs] <;> rfl
          · by_cases hto : order.status = .rejected_timeout
            · rw [show apply_full_op store (.submit oid uid photos now)
                  = (handle_proof store oid uid photos now).2 from rfl,
                handle_proof_eq_timed_out store oid uid photos now photo_id hph
                  order hfind hown hto]
              exact ⟨h, reaches_refl _⟩
            · rw [show apply_full_op store (.submit oid uid photos now)
                  = (handle_proof store oid uid photos now).2 from rfl,
                handle_proof_eq_processed store oid uid photos now photo_id hph
                  order hfind hown hto hact]
              exact ⟨h, reaches_refl _⟩
        · rw [show apply_full_op store (.submit oid uid photos now)
              = (handle_proof store oid uid photos now).2 from rfl,
            handle_proof_eq_not_owner store oid uid photos now photo_id hph
              order hfind hown]
          exact ⟨h, reaches_refl _⟩
  | approve admins aid oid now =>
    cases hadm : is_admin admins aid with
    | false =>
      rw [show apply_full_op store (.approve admins aid oid now)
          = (approve_order store admins aid oid now).2 from rfl,
        approve_order_eq_forbidden store admins aid oid now hadm]
      exact ⟨h, reaches_refl _⟩
    | true =>
      cases hfind : find_order store oid with
      | none =>
        rw [show apply_full_op store (.approve admins aid oid now)
            = (approve_order store admins aid oid now).2 from rfl,
          approve_order_eq_not_found store admins aid oid now hadm hfind]
        exact ⟨h, reaches_refl _⟩
      | some order =>
        by_cases hst : order.status = .proof_submitted
        · cases hget : get_product store order.product_id with
          | none =>
            rw [show apply_full_op store (.approve admins aid oid now)
                = (approve_order store admins aid oid now).2 from rfl,
              approve_order_eq_product_gone store admins aid oid now hadm
                order hfind hst hget]
            dsimp only
            refine ⟨by rw [update_order_length]; exact h, ?_⟩
            refine update_order_forward store oid _ ?_ i h _
            intro o ho
            rw [hfind] at ho
            injection ho with ho
            subst ho
            rw [hst]
            rfl
          | some product =>
            by_cases hstock : product.stock < order.qty
            · rw [show apply_full_op store (.approve admins aid oid now)
                  = (approve_order store admins aid oid now).2 from rfl,
                approve_order_eq_cancel_stock store admins aid oid now hadm
                  order hfind hst product hget hstock]
              dsimp only
              refine ⟨by rw [update_order_length]; exact h, ?_⟩
              refine update_order_forward store oid _ ?_ i h _
              intro o ho
              rw [hfind] at ho
              injection ho with ho
              subst ho
              rw [hst]
              rfl
            · rw [show apply_full_op store (.approve admins aid oid now)
                  = (approve_order store admins aid oid now).2 from rfl,
                approve_order_eq_approved store admins aid oid now hadm
                  order hfind hst product hget hstock]
              dsimp only
              refine ⟨by rw [update_order_length]; exact h, ?_⟩
              refine update_order_forward
                (update_product store order.product_id
                  (fun p => { p with stock := p.stock - order.qty })) oid _ ?_ i h _
              intro o ho
              have ho' : find_order store oid = some o := ho
              rw [hfind] at ho'
              injection ho' with ho'
              subst ho'
              rw [hst]
              rfl
        · rw [show apply_full_op store (.approve admins aid oid now)
              = (approve_order store admins aid oid now).2 from rfl,
            approve_order_eq_wrong_state store admins aid oid now hadm order hfind hst]
          exact ⟨h, reaches_refl _⟩
  | reject admins aid oid now =>
    cases hadm : is_admin admins aid with
    | false =>
      rw [show apply_full_op store (.reject admins aid oid now)
          = (reject_order store admins aid oid now).2 from rfl,
        reject_order_eq_forbidden store admins aid oid now hadm]
      exact ⟨h, reaches_refl _⟩
    | true =>
      cases hfind : find_order store oid with
      | none =>
        rw [show apply_full_op store (.reject admins aid oid now)
            = (reject_order store admins aid oid now).2 from rfl,
          reject_order_eq_not_found store admins aid oid now hadm hfind]
        exact ⟨h, reaches_refl _⟩
      | some order =>
        by_cases hact : order.status = .proof_submitted ∨ order.status = .pending_payment
            ∨ order.status = .awaiting_proof
        · rw [show apply_full_op store (.reject admins aid oid now)
              = (reject_order store admins aid oid now).2 from rfl,
            reject_order_eq_ok store admins aid oid now hadm order hfind hact]
          dsimp only
          refine ⟨by rw [update_order_length]; exact h, ?_⟩
          refine update_order_forward store oid _ ?_ i h _
          intro o ho
          rw [hfind] at ho
          injection ho with ho
          subst ho
          rcases hact with hs | hs | hs <;> rw [hs] <;> rfl
        · rw [show apply_full_op store (.reject admins aid oid now)
              = (reject_order store admins aid oid now).2 from rfl,
            reject_order_eq_processed store admins aid oid now hadm order hfind hact]
          exact ⟨h, reaches_refl _⟩
  | expire oid now =>
    cases hfind : find_order store oid with
    | none =>
      rw [show apply_full_op store (.expire oid now) = auto_reject store oid now from rfl,
        auto_reject_eq_not_found store oid now hfind]
      exact ⟨h, reaches_refl _⟩
    | some order =>
      by_cases hact : order.status = .pending_payment ∨ order.status = .awaiting_proof
      · cases hexp : is_order_expired order now with
        | true =>
          rw [show apply_full_op store (.expire oid now) = auto_reject store oid now from rfl,
            auto_reject_eq_timeout store oid now order hfind hact hexp]
          refine ⟨by rw [update_order_length]; exact h, ?_⟩
          refine update_order_forward store oid _ ?_ i h _
          intro o ho
          rw [hfind] at ho
          injection ho with ho
          subst ho
          rcases hact with hs | hs <;> rw [hs] <;> rfl
        | false =>
          rw [show apply_full_op store (.expire oid now) = auto_reject store oid now from rfl,
            auto_reject_eq_not_expired store oid now order hfind hexp]
          exact ⟨h, reaches_refl _⟩
      · rw [show apply_full_op store (.expire oid now) = auto_reject store oid now from rfl,
          auto_reject_eq_wrong_status store oid now order hfind hact]
        exact ⟨h, reaches_refl _⟩

/-- Claim C4: for every order already in the store and every sequence of
engine operations, the order's status only moves forward along the §4.3
transition graph (`reaches`, the reflexive-transitive closure of
`direct_edge`), and once the status is terminal (`paid`, `rejected`,
`rejected_timeout`, `cancelled`) no operation changes it again. -/
theorem order_status_forward (store : Store) (ops : List FullOp) (i : Nat)
    (h : i < store.orders.length) :
    ∃ h' : i < (apply_full_ops store ops).orders.length,
      reaches (store.orders.get ⟨i, h⟩).status
        ((apply_full_ops store ops).orders.get ⟨i, h'⟩).status = true
      ∧ (is_terminal (store.orders.get ⟨i, h⟩).status = true →
        ((apply_full_ops store ops).orders.get ⟨i, h'⟩).status
          = (store.orders.get ⟨i, h⟩).status) := by
  induction ops generalizing store i with
  | nil => exact ⟨h, reaches_refl _, fun _ => rfl⟩
  | cons op rest ih =>
    obtain ⟨h1, hr1⟩ := apply_full_op_forward store op i h
    obtain ⟨h2, hr2, ht2⟩ := ih (apply_full_op store op) i h1
    refine ⟨h2, reaches_trans _ _ _ hr1 hr2, ?_⟩
    intro hterm
    have hb : ((apply_full_op store op).orders.get ⟨i, h1⟩).status
        = (store.orders.get ⟨i, h⟩).status :=
      terminal_reaches_eq _ _ hterm hr1
    have hterm1 : is_terminal ((apply_full_op store op).orders.get ⟨i, h1⟩).status = true := by
      rw [hb]; exact hterm
    exact (ht2 hterm1).trans hb

/-- Witness for C4: the example order (already `proof_submitted`) under an
approve followed by a late reject attempt. -/
theorem order_status_forward_witness :
    ∃ h' : 0 < (apply_full_ops ex_store
        [.approve [9] 9 1 100, .reject [9] 9 1 200]).orders.length,
      reaches (ex_store.orders.get ⟨0, by decide⟩).status
        ((apply_full_ops ex_store
          [.approve [9] 9 1 100, .reject [9] 9 1 200]).orders.get ⟨0, h'⟩).status = true
      ∧ (is_terminal (ex_store.orders.get ⟨0, by decide⟩).status = true →
        ((apply_full_ops ex_store
          [.approve [9] 9 1 100, .reject [9] 9 1 200]).orders.get ⟨0, h'⟩).status
          = (ex_store.orders.get ⟨0, by decide⟩).status) :=
  order_status_forward ex_store [.approve [9] 9 1 100, .reject [9] 9 1 200] 0 (by decide)

/-- Claim C5 counterexample: the pending example order was created at time 0,
so its deadline is 60; at time 60 the order counts as expired, yet
`_reject_order` — a state-reading operation on that order — applies the
`rejected` transition instead of first performing `expire` (final status
`rejected`, not `rejected_timeout`), and `_approve_order` at the same moment
reports `WrongState` without expiring the order, which stays observable in
`pending_payment`. -/
theorem reject_after_deadline_not_timeout :
    is_order_expired pending_order 60 = true
    ∧ (reject_order pending_store [9] 9 1 60).1 = .rejected_ok
    ∧ find_order (reject_order pending_store [9] 9 1 60).2 1
        = some { pending_order with
            status := .rejected
            rejected_at := some 60
            rejected_by := some 9 }
    ∧ (OrderStatus.rejected ≠ OrderStatus.rejected_timeout)
    ∧ approve_order pending_store [9] 9 1 60 = (.wrong_state, pending_store)
    ∧ (find_order pending_store 1).map Order.status = some .pending_payment := by
  exact ⟨by decide, by decide, by decide, by decide, by decide, by decide⟩

/-- Claim C5 (amended): for an order created at `t0` and still in
`pending_payment` or `awaiting_proof`, the buyer proof operations
(`_prompt_proof`, `handle_proof`) performed at or after `t0 + 60` themselves
perform the `expire` transition (status becomes `rejected_timeout`) before
reporting; `_approve_order` at such a time fails `WrongState` leaving the
store unchanged; but `_reject_order` by an admin never checks the deadline
and still applies the `rejected` transition. -/
theorem lazy_expiry_amended (store : Store) (oid uid now t0 : Int) (order : Order)
    (hfind : find_order store oid = some order)
    (hown : order.buyer_id = uid)
    (hact : order.status = .pending_payment ∨ order.status = .awaiting_proof)
    (hc : order.created_at = some t0)
    (hdl : t0 + ORDER_PAYMENT_TIMEOUT_SECONDS ≤ now) :
    ((prompt_proof store oid uid now).1 = .expired_now
      ∧ find_order (prompt_proof store oid uid now).2 oid
          = some (mark_order_timeout order now)
      ∧ (mark_order_timeout order now).status = .rejected_timeout)
    ∧ (∀ photos photo_id, (photos : List String).getLast? = some photo_id →
        (handle_proof store oid uid photos now).1 = .expired_now
        ∧ find_order (handle_proof store oid uid photos now).2 oid
            = some (mark_order_timeout order now))
    ∧ (∀ admins aid, is_admin admins aid = true →
        approve_order store admins aid oid now = (.wrong_state, store))
    ∧ (∀ admins aid, is_admin admins aid = true →
        reject_order store admins aid oid now
          = (.rejected_ok, update_order store oid (fun o =>
              { o with
                  status := .rejected
                  rejected_at := some now
                  rejected_by := some aid }))) := by
  have hexp : is_order_expired order now = true := by
    unfold is_order_expired
    rw [hc]
    simp only [decide_eq_true_eq]
    have h60 : ORDER_PAYMENT_TIMEOUT_SECONDS = 60 := rfl
    omega
  refine ⟨?_, ?_, ?_, ?_⟩
  · rw [prompt_proof_eq_expired store oid uid now order hfind hown hact hexp]
    refine ⟨rfl, ?_, rfl⟩
    have h1 := find_order_update_order store oid
      (fun o => mark_order_timeout o now) (fun o => rfl)
    dsimp only
    rw [h1, hfind]
    rfl
  · intro photos photo_id hph
    rw [handle_proof_eq_expired store oid uid photos now photo_id hph
      order hfind hown hact hexp]
    refine ⟨rfl, ?_⟩
    have h1 := find_order_update_order store oid
      (fun o => mark_order_timeout o now) (fun o => rfl)
    dsimp only
    rw [h1, hfind]
    rfl
  · intro admins aid hadm
    refine approve_order_eq_wrong_state store admins aid oid now hadm order hfind ?_
    rcases hact with hs | hs <;> rw [hs] <;> decide
  · intro admins aid hadm
    exact reject_order_eq_ok store admins aid oid now hadm order hfind (Or.inr hact)

/-- Witness for C5 (amended): the pending example order prompted for proof
exactly at its deadline is expired on the spot. -/
theorem lazy_expiry_amended_witness :
    (prompt_proof pending_store 1 7 60).1 = .expired_now
      ∧ find_order (prompt_proof pending_store 1 7 60).2 1
          = some (mark_order_timeout pending_order 60)
      ∧ (mark_order_timeout pending_order 60).status = .rejected_timeout :=
  (lazy_expiry_amended pending_store 1 7 60 0 pending_order rfl rfl (Or.inl rfl) rfl
    (by decide)).1
